import Mathlib

/-!
Verification of the terraform-provider-rems-content repository.

The development shallowly embeds the provider's form resource
(internal/provider/resources/form_resource.go), the two provider
functions (internal/provider/functions/form_field_header_function.go and
form_field_label_function.go) and the provider's resource registry
(provider.go).  Terraform attribute values are modelled with explicit
null/unknown/value states; every operation returns, besides its
diagnostics and state, an explicit trace of the REMS API calls it
issues, so that claims about which calls happen are stated as facts
about that trace.
-/

namespace RemsContent

/-! ## Terraform attribute values

The plugin framework types (types.String, types.Bool, types.Int64,
types.Map) each carry a three-way state: null, unknown, or a known
value.  ValueString / ValueBool return the Go zero value on null or
unknown, exactly as the framework does. -/

inductive TFString where
  | null
  | unknown
  | value (s : String)
deriving DecidableEq

def TFString.isNull : TFString → Bool
  | .null => true
  | _ => false

def TFString.isUnknown : TFString → Bool
  | .unknown => true
  | _ => false

def TFString.valueString : TFString → String
  | .value s => s
  | _ => ""

inductive TFBool where
  | null
  | unknown
  | value (b : Bool)
deriving DecidableEq

def TFBool.valueBool : TFBool → Bool
  | .value b => b
  | _ => false

inductive TFInt64 where
  | null
  | unknown
  | value (i : Int)
deriving DecidableEq

inductive TFMap where
  | null
  | unknown
  | value (m : List (String × String))
deriving DecidableEq

def TFMap.isNull : TFMap → Bool
  | .null => true
  | _ => false

def TFMap.isUnknown : TFMap → Bool
  | .unknown => true
  | _ => false

def TFMap.elements : TFMap → List (String × String)
  | .value m => m
  | _ => []

/-! ## Resource data models (form_resource.go) -/

structure FormFieldResourceModel where
  id : TFString
  type : TFString
  title : TFMap
  info : TFString
  placeholder : TFString
  optional : TFBool
deriving DecidableEq

structure FormResourceModel where
  id : TFInt64
  organizationId : TFString
  title : TFString
  fields : List FormFieldResourceModel
deriving DecidableEq

/-! ## Generated REMS client models (remsclient)

The generated OpenAPI client distinguishes an unset nullable field, a
field explicitly set to nil, and a field set to a value. -/

inductive NullableString where
  | unset
  | nil
  | value (s : String)
deriving DecidableEq

structure OrganizationId where
  organizationId : String
deriving DecidableEq

def NewOrganizationId (s : String) : OrganizationId :=
  { organizationId := s }

structure NewFieldTemplate where
  fieldTitle : List (String × String)
  fieldType : String
  fieldOptional : Bool
  fieldId : Option String
deriving DecidableEq

def NewNewFieldTemplate (title : List (String × String)) (fieldType : String)
    (fieldOptional : Bool) : NewFieldTemplate :=
  { fieldTitle := title, fieldType := fieldType,
    fieldOptional := fieldOptional, fieldId := none }

def NewFieldTemplate.setFieldId (f : NewFieldTemplate) (s : String) : NewFieldTemplate :=
  { f with fieldId := some s }

structure CreateFormCommand where
  organization : Option OrganizationId
  formTitle : NullableString
  formFields : Option (List NewFieldTemplate)
deriving DecidableEq

def NewCreateFormCommandWithDefaults : CreateFormCommand :=
  { organization := none, formTitle := .unset, formFields := none }

def CreateFormCommand.setOrganization (c : CreateFormCommand)
    (o : OrganizationId) : CreateFormCommand :=
  { c with organization := some o }

def CreateFormCommand.setFormTitle (c : CreateFormCommand) (s : String) : CreateFormCommand :=
  { c with formTitle := .value s }

def CreateFormCommand.setFormTitleNil (c : CreateFormCommand) : CreateFormCommand :=
  { c with formTitle := .nil }

def CreateFormCommand.setFormFields (c : CreateFormCommand)
    (fs : List NewFieldTemplate) : CreateFormCommand :=
  { c with formFields := some fs }

/-- The SuccessResponse returned by the forms create endpoint. -/
structure CreateFormResult where
  success : Bool
  id : Option Int
  errors : List String
deriving DecidableEq

def CreateFormResult.getId (r : CreateFormResult) : Int :=
  r.id.getD 0

def CreateFormResult.getErrors (r : CreateFormResult) : List String :=
  r.errors

/-- A REST call against the REMS API, as recorded in an operation's trace. -/
inductive RemsApiCall where
  | apiFormsCreatePost (cmd : CreateFormCommand)
deriving DecidableEq

/-- A Terraform diagnostic (summary and detail), as added by AddError. -/
structure Diagnostic where
  summary : String
  detail : String
deriving DecidableEq

/-- Outcome of a lifecycle operation: the diagnostics it appended, the
state it wrote (none when it returned without writing state), and the
trace of REMS API calls it issued. -/
structure LifecycleResponse where
  diagnostics : List Diagnostic
  state : Option FormResourceModel
  apiCalls : List RemsApiCall
deriving DecidableEq

/-! ## FormResource.Create (form_resource.go lines 189 to 281) -/

/-- The field loop of Create (lines 226 to 246): a planned field is
turned into a NewFieldTemplate only when its title is neither null nor
unknown; the field id is attached only when it is not null. -/
def toNewFieldTemplate (f : FormFieldResourceModel) : NewFieldTemplate :=
  let newField := NewNewFieldTemplate f.title.elements f.type.valueString f.optional.valueBool
  if !f.id.isNull then newField.setFieldId f.id.valueString else newField

def buildNewFields : List FormFieldResourceModel → List NewFieldTemplate
  | [] => []
  | f :: rest =>
    if !f.title.isNull && !f.title.isUnknown then
      toNewFieldTemplate f :: buildNewFields rest
    else
      buildNewFields rest

/-- Construction of the CreateFormCommand from the plan (lines 211 to 248). -/
def FormResource.buildCreateFormCommand (plan : FormResourceModel) : CreateFormCommand :=
  let orgId := NewOrganizationId plan.organizationId.valueString
  let formConfig := NewCreateFormCommandWithDefaults
  let formConfig := formConfig.setOrganization orgId
  let formConfig :=
    if plan.title.isNull then
      formConfig.setFormTitleNil
    else
      formConfig.setFormTitle plan.title.valueString
  formConfig.setFormFields (buildNewFields plan.fields)

/-- FormResource.Create.  The behaviour of the REMS server is a
parameter: formsApi maps the sent command either to a transport error
or to a CreateFormResult.  On an error or an unsuccessful result,
Create adds an error diagnostic and returns without writing state;
otherwise it writes the plan with the id replaced by the returned id. -/
def FormResource.create (plan : FormResourceModel)
    (formsApi : CreateFormCommand → Except String CreateFormResult) : LifecycleResponse :=
  let formConfig := FormResource.buildCreateFormCommand plan
  match formsApi formConfig with
  | .error e =>
    { diagnostics := [{ summary := "Failure to create form",
                        detail := "Could not create form: " ++ e }],
      state := none,
      apiCalls := [.apiFormsCreatePost formConfig] }
  | .ok createResult =>
    if !createResult.success then
      { diagnostics := [{ summary := "Failure to create form",
                          detail := "Could not create form: "
                            ++ String.intercalate ", " createResult.getErrors }],
        state := none,
        apiCalls := [.apiFormsCreatePost formConfig] }
    else
      { diagnostics := [],
        state := some { plan with id := TFInt64.value createResult.getId },
        apiCalls := [.apiFormsCreatePost formConfig] }

/-! ## FormResource.Read, Update, Delete (form_resource.go lines 283 to 344)

Read copies the prior state back into state, Update copies the plan
into state, Delete only reads the prior state; none of them issues a
REMS API call (the client call in each body is commented out). -/

def FormResource.read (state : FormResourceModel) : LifecycleResponse :=
  { diagnostics := [], state := some state, apiCalls := [] }

def FormResource.update (plan : FormResourceModel) : LifecycleResponse :=
  { diagnostics := [], state := some plan, apiCalls := [] }

def FormResource.delete (_state : FormResourceModel) : LifecycleResponse :=
  { diagnostics := [], state := none, apiCalls := [] }

/-! ## Provider functions (form_field_header_function.go and
form_field_label_function.go)

The result structs carry Go zero values for every attribute the Run
body does not mention; in particular Optional stays false. -/

structure HeaderFieldObject where
  id : String := ""
  title : List (String × String) := []
  type : String := ""
  optional : Bool := false
deriving DecidableEq

structure LabelFieldObject where
  title : String := ""
  type : String := ""
  optional : Bool := false
deriving DecidableEq

def FormFieldHeaderFunction.run (idData : String) (titleData : List (String × String)) :
    HeaderFieldObject × List RemsApiCall :=
  ({ id := idData, title := titleData, type := "header" }, [])

def FormFieldLabelFunction.run (titleData : String) :
    LabelFieldObject × List RemsApiCall :=
  ({ title := titleData, type := "label" }, [])

/-! ## Provider resource registry (provider.go lines 111 to 120) -/

inductive ContentType where
  | catalogueItem
  | category
  | form
  | license
  | resource
  | workflow
deriving DecidableEq

structure ResourceConstructor where
  name : String
  manages : ContentType
deriving DecidableEq

def RemsContentProvider.resources : List ResourceConstructor :=
  [{ name := "NewCatalogueItemResource", manages := .catalogueItem },
   { name := "NewCategoryResource", manages := .category },
   { name := "NewFormResource", manages := .form },
   { name := "NewLicenseResource", manages := .license },
   { name := "NewResourceResource", manages := .resource },
   { name := "NewWorkflowResource", manages := .workflow }]

/-- The six REMS content object types as the spec names them:
forms, categories, licenses, workflows, catalogue items, resources. -/
def specContentTypes : List ContentType :=
  [.form, .category, .license, .workflow, .catalogueItem, .resource]

/-! ## Sample data for witnesses -/

def sampleField : FormFieldResourceModel :=
  { id := .value "fld1", type := .value "header",
    title := .value [("en", "Applicant")],
    info := .null, placeholder := .null, optional := .value false }

def samplePlan : FormResourceModel :=
  { id := .unknown, organizationId := .value "Our Organisation",
    title := .value "Access to XYZ data", fields := [sampleField] }

def failingApi : CreateFormCommand → Except String CreateFormResult :=
  fun _ => .error "connection refused"

def succeedingApi : CreateFormCommand → Except String CreateFormResult :=
  fun _ => .ok { success := true, id := some 7, errors := [] }

/-! ## Helper lemmas -/

theorem FormResource.create_apiCalls (plan : FormResourceModel)
    (formsApi : CreateFormCommand → Except String CreateFormResult) :
    (FormResource.create plan formsApi).apiCalls =
      [.apiFormsCreatePost (FormResource.buildCreateFormCommand plan)] := by
  unfold FormResource.create
  cases h : formsApi (FormResource.buildCreateFormCommand plan) with
  | error e => simp [h]
  | ok r => by_cases hs : r.success <;> simp [h, hs]

theorem buildNewFields_eq_filter_map (fs : List FormFieldResourceModel) :
    buildNewFields fs =
      (fs.filter (fun f => !f.title.isNull && !f.title.isUnknown)).map toNewFieldTemplate := by
  induction fs with
  | nil => rfl
  | cons f rest ih =>
    by_cases h : (!f.title.isNull && !f.title.isUnknown) = true <;>
      simp [buildNewFields, List.filter, h, ih]

end RemsContent

namespace RemsContent

/-- Claim C1: for every plan, if the REMS create call made by
FormResource.Create returns an error, or returns a result whose Success
flag is false, then Create adds an error diagnostic and returns
without writing anything to the Terraform state, and no recovery or
retry is attempted (exactly the one call is issued). -/
theorem create_failure_adds_diagnostic_and_writes_no_state
    (plan : FormResourceModel)
    (formsApi : CreateFormCommand → Except String CreateFormResult)
    (h : (∃ e, formsApi (FormResource.buildCreateFormCommand plan) = .error e) ∨
         (∃ r, formsApi (FormResource.buildCreateFormCommand plan) = .ok r ∧
           r.success = false)) :
    (FormResource.create plan formsApi).diagnostics ≠ [] ∧
    (FormResource.create plan formsApi).state = none ∧
    (FormResource.create plan formsApi).apiCalls.length = 1 := by
  unfold FormResource.create
  rcases h with ⟨e, he⟩ | ⟨r, hr, hs⟩
  · simp [he]
  · simp [hr, hs]

/-- Witness for C1 at a concrete plan and a failing API. -/
theorem create_failure_adds_diagnostic_and_writes_no_state_witness :
    (FormResource.create samplePlan failingApi).diagnostics ≠ [] ∧
    (FormResource.create samplePlan failingApi).state = none ∧
    (FormResource.create samplePlan failingApi).apiCalls.length = 1 :=
  create_failure_adds_diagnostic_and_writes_no_state samplePlan failingApi
    (Or.inl ⟨"connection refused", rfl⟩)

/-- Claim C2 counterexample: at a concrete prior state and plan,
FormResource.Read, FormResource.Update and FormResource.Delete each
issue no call against the REMS REST API, refuting the claim that every
lifecycle operation is mapped to a REMS API call. -/
theorem read_update_delete_issue_no_api_call :
    (FormResource.read samplePlan).apiCalls = [] ∧
    (FormResource.update samplePlan).apiCalls = [] ∧
    (FormResource.delete samplePlan).apiCalls = [] :=
  ⟨rfl, rfl, rfl⟩

/-- Claim C2 (amended): only Create is mapped to a REMS API call; Read,
Update and Delete issue none — Read copies the prior state back into
state, Update copies the plan into state, and Delete only reads the
prior state. -/
theorem lifecycle_api_call_mapping (plan state0 : FormResourceModel)
    (formsApi : CreateFormCommand → Except String CreateFormResult) :
    (FormResource.create plan formsApi).apiCalls.length = 1 ∧
    (FormResource.read state0).apiCalls = [] ∧
    (FormResource.update plan).apiCalls = [] ∧
    (FormResource.delete state0).apiCalls = [] ∧
    (FormResource.read state0).state = some state0 ∧
    (FormResource.update plan).state = some plan := by
  refine ⟨?_, rfl, rfl, rfl, rfl, rfl⟩
  rw [FormResource.create_apiCalls]
  rfl

/-- Claim C3: when the create call succeeds (Success true), Create adds
no diagnostic and the state written equals the plan with only the id
attribute replaced by the id returned in the API response;
organization_id, title and fields are copied unchanged. -/
theorem create_success_state_is_plan_with_new_id
    (plan : FormResourceModel)
    (formsApi : CreateFormCommand → Except String CreateFormResult)
    (r : CreateFormResult)
    (hok : formsApi (FormResource.buildCreateFormCommand plan) = .ok r)
    (hs : r.success = true) :
    (FormResource.create plan formsApi).diagnostics = [] ∧
    (FormResource.create plan formsApi).state =
      some { plan with id := TFInt64.value r.getId } := by
  unfold FormResource.create
  simp [hok, hs]

/-- Witness for C3 at a concrete plan and a succeeding API. -/
theorem create_success_state_is_plan_with_new_id_witness :
    (FormResource.create samplePlan succeedingApi).diagnostics = [] ∧
    (FormResource.create samplePlan succeedingApi).state =
      some { samplePlan with id := TFInt64.value 7 } :=
  create_success_state_is_plan_with_new_id samplePlan succeedingApi
    { success := true, id := some 7, errors := [] } rfl rfl

/-- Claim C4: the provider functions form_field_header and
form_field_label are pure transformations: runs on equal arguments
produce equal results, and no REMS API call is issued on any input. -/
theorem provider_functions_are_pure
    (i1 i2 : String) (t1 t2 : List (String × String)) (s1 s2 : String)
    (hi : i1 = i2) (ht : t1 = t2) (hs : s1 = s2) :
    FormFieldHeaderFunction.run i1 t1 = FormFieldHeaderFunction.run i2 t2 ∧
    (FormFieldHeaderFunction.run i1 t1).2 = [] ∧
    FormFieldLabelFunction.run s1 = FormFieldLabelFunction.run s2 ∧
    (FormFieldLabelFunction.run s1).2 = [] := by
  subst hi
  subst ht
  subst hs
  exact ⟨rfl, rfl, rfl, rfl⟩

/-- Witness for C4 at concrete arguments. -/
theorem provider_functions_are_pure_witness :
    FormFieldHeaderFunction.run "fld1" [("en", "Applicant")] =
      FormFieldHeaderFunction.run "fld1" [("en", "Applicant")] ∧
    (FormFieldHeaderFunction.run "fld1" [("en", "Applicant")]).2 = [] ∧
    FormFieldLabelFunction.run "note" = FormFieldLabelFunction.run "note" ∧
    (FormFieldLabelFunction.run "note").2 = [] :=
  provider_functions_are_pure "fld1" "fld1" [("en", "Applicant")]
    [("en", "Applicant")] "note" "note" rfl rfl rfl

/-- Claim C5: the Resources method returns constructors for exactly the
six REMS content object types named in the spec — catalogue item,
category, form, license, resource and workflow — each exactly once. -/
theorem resources_cover_exactly_the_six_content_types :
    (RemsContentProvider.resources.map ResourceConstructor.manages).Perm
      specContentTypes ∧
    RemsContentProvider.resources.length = 6 ∧
    (RemsContentProvider.resources.map ResourceConstructor.manages).Nodup := by
  decide

/-- Claim C6: a single invocation of FormResource.Create issues exactly
one REST call, to the forms create endpoint ApiFormsCreatePost, for
every plan regardless of its number of fields. -/
theorem create_issues_exactly_one_api_call
    (plan : FormResourceModel)
    (formsApi : CreateFormCommand → Except String CreateFormResult) :
    (FormResource.create plan formsApi).apiCalls.length = 1 ∧
    (FormResource.create plan formsApi).apiCalls =
      [.apiFormsCreatePost (FormResource.buildCreateFormCommand plan)] := by
  rw [FormResource.create_apiCalls]
  exact ⟨rfl, rfl⟩

/-- Claim C7: in the request Create sends, a null plan title is mapped
to a form title explicitly set to nil, and otherwise the form title is
set to the plan title's string value. -/
theorem create_title_null_maps_to_explicit_nil (plan : FormResourceModel) :
    (FormResource.buildCreateFormCommand plan).formTitle =
      (if plan.title.isNull then NullableString.nil
       else NullableString.value plan.title.valueString) := by
  unfold FormResource.buildCreateFormCommand
  by_cases h : plan.title.isNull <;>
    simp [h, CreateFormCommand.setFormTitleNil, CreateFormCommand.setFormTitle,
      CreateFormCommand.setFormFields, CreateFormCommand.setOrganization]

/-- Claim C8: during Create, planned fields whose title is null or
unknown are silently dropped: the form fields sent are exactly the
planned fields with a known, non-null title, in plan order, and the
only diagnostic Create can add reports the API call failing, never a
dropped field. -/
theorem create_drops_untitled_fields_silently
    (plan : FormResourceModel)
    (formsApi : CreateFormCommand → Except String CreateFormResult) :
    (FormResource.buildCreateFormCommand plan).formFields =
      some ((plan.fields.filter
        (fun f => !f.title.isNull && !f.title.isUnknown)).map toNewFieldTemplate) ∧
    ((FormResource.create plan formsApi).diagnostics = [] ∨
      ∃ d, (FormResource.create plan formsApi).diagnostics = [d] ∧
        d.summary = "Failure to create form") := by
  constructor
  · unfold FormResource.buildCreateFormCommand
    by_cases h : plan.title.isNull <;>
      simp [h, CreateFormCommand.setFormTitleNil, CreateFormCommand.setFormTitle,
        CreateFormCommand.setFormFields, CreateFormCommand.setOrganization,
        buildNewFields_eq_filter_map]
  · unfold FormResource.create
    cases hcall : formsApi (FormResource.buildCreateFormCommand plan) with
    | error e =>
      exact Or.inr
        ⟨⟨"Failure to create form", "Could not create form: " ++ e⟩,
          by simp [hcall], rfl⟩
    | ok r =>
      by_cases hs : r.success
      · exact Or.inl (by simp [hcall, hs])
      · exact Or.inr
          ⟨⟨"Failure to create form",
            "Could not create form: " ++ String.intercalate ", " r.getErrors⟩,
            by simp [hcall, hs], rfl⟩

/-- Claim C9: for every pair of arguments, form_field_header's Run
returns an object whose id is field_id, whose title is the title map,
whose type is the string "header", and whose optional attribute is
always false, with no way for the caller to set it otherwise. -/
theorem header_run_returns_header_object
    (fieldId : String) (title : List (String × String)) :
    (FormFieldHeaderFunction.run fieldId title).1 =
      { id := fieldId, title := title, type := "header", optional := false } :=
  rfl

/-- Claim C10: for every string argument, form_field_label's Run
returns an object whose title is that plain string, whose type is the
string "label", and whose optional attribute is always false. -/
theorem label_run_returns_label_object (title : String) :
    (FormFieldLabelFunction.run title).1 =
      { title := title, type := "label", optional := false } :=
  rfl

end RemsContent
